import Mathlib

/-!
Shallow embedding of the stenoai summarization pipeline
(`src/summarizer.py`, `src/models.py`): the JSON value model,
a model of Python `json.loads`, the regex-based repair passes,
the response cleaning, the structured mapper, the pydantic data
model, and the `summarize_transcript` orchestrator.
-/

/-- Python JSON values as produced by `json.loads`: null, bools, ints,
floats (represented exactly as rationals; JSON decimal literals are
exact rationals), the special float constants NaN, Infinity and negative Infinity
that Python's loader accepts, strings, arrays and objects (objects keep
insertion order with unique keys, matching `dict` semantics). -/
inductive Json where
  | null
  | jbool (b : Bool)
  | jint (n : Int)
  | jfloat (q : ℚ)
  | jnan
  | jinf (neg : Bool)
  | jstr (s : String)
  | jarr (xs : List Json)
  | jobj (kvs : List (String × Json))
deriving Repr

/-- Python exception classes that can arise in the embedded code. -/
inductive PyErr where
  | validationError
  | attributeError
  | typeError
  | jsonDecodeError
  | transportError
deriving Repr, DecidableEq

/-- JSON whitespace accepted by Python's json scanner (' ', tab, newline, CR). -/
def jsonWs (c : Char) : Bool :=
  c = ' ' || c = '\t' || c = '\n' || c = '\r'

/-- Whitespace for Python `str.strip()` / regex `\s` (ASCII portion). -/
def isPyWs (c : Char) : Bool :=
  c = ' ' || c = '\t' || c = '\n' || c = '\r' || c = '\x0b' || c = '\x0c'

/-- Python `str.strip()`. -/
def pyStrip (s : String) : String :=
  String.mk (((s.data.dropWhile isPyWs).reverse.dropWhile isPyWs).reverse)

/-- Python `str.lower()` (ASCII portion). -/
def pyLower (s : String) : String :=
  String.mk (s.data.map Char.toLower)

/-- Python `str.startswith`. -/
def strStartsWith (s p : String) : Bool :=
  p.data.isPrefixOf s.data

/-- One pass of Python `str.replace(old, new)`: all non-overlapping
occurrences, scanned left to right (`old` is non-empty at every call
site; the fuel only serves termination). -/
def replaceScan (fuel : Nat) (old new : List Char) (cs : List Char) : List Char :=
  match fuel with
  | 0 => cs
  | fuel + 1 =>
    match cs with
    | [] => []
    | c :: rest =>
      if old ≠ [] ∧ old.isPrefixOf cs then
        new ++ replaceScan fuel old new (cs.drop old.length)
      else c :: replaceScan fuel old new rest

/-- Python `str.replace(old, new)`. -/
def pyReplace (s old new : String) : String :=
  String.mk (replaceScan (s.length + 1) old.data new.data s.data)

/-- Insert a key/value into a JSON object the way `dict` assignment does:
an existing key keeps its position and gets the new value, a new key is
appended. -/
def objInsert (kvs : List (String × Json)) (k : String) (v : Json) :
    List (String × Json) :=
  if kvs.any (fun kv => kv.1 = k) then
    kvs.map (fun kv => if kv.1 = k then (k, v) else kv)
  else
    kvs ++ [(k, v)]

/-- Value of a hex digit, if any. -/
def hexVal (c : Char) : Option Nat :=
  if '0' ≤ c ∧ c ≤ '9' then some (c.toNat - '0'.toNat)
  else if 'a' ≤ c ∧ c ≤ 'f' then some (c.toNat - 'a'.toNat + 10)
  else if 'A' ≤ c ∧ c ≤ 'F' then some (c.toNat - 'A'.toNat + 10)
  else none

/-- Decode a `\uXXXX` code unit to a `Char` (surrogate code points, which
Python's loader tolerates, are mapped to a default character; only
string contents are affected, never parse success). -/
def charOfCodeUnit (n : Nat) : Char :=
  Char.ofNat n

/-- Parse the body of a JSON string after the opening quote, in the strict
mode `json.loads` uses: raw control characters below 0x20 are rejected,
escapes are the JSON ones. Returns the string and the remaining input. -/
def parseJStr (fuel : Nat) (acc : List Char) (cs : List Char) :
    Option (String × List Char) :=
  match fuel with
  | 0 => none
  | fuel + 1 =>
    match cs with
    | [] => none
    | c :: rest =>
      if c = '"' then some (String.mk acc.reverse, rest)
      else if c = '\\' then
        match rest with
        | [] => none
        | e :: rest2 =>
          if e = '"' then parseJStr fuel ('"' :: acc) rest2
          else if e = '\\' then parseJStr fuel ('\\' :: acc) rest2
          else if e = '/' then parseJStr fuel ('/' :: acc) rest2
          else if e = 'b' then parseJStr fuel ('\x08' :: acc) rest2
          else if e = 'f' then parseJStr fuel ('\x0c' :: acc) rest2
          else if e = 'n' then parseJStr fuel ('\n' :: acc) rest2
          else if e = 'r' then parseJStr fuel ('\r' :: acc) rest2
          else if e = 't' then parseJStr fuel ('\t' :: acc) rest2
          else if e = 'u' then
            match rest2 with
            | h1 :: h2 :: h3 :: h4 :: rest3 =>
              match hexVal h1, hexVal h2, hexVal h3, hexVal h4 with
              | some a, some b, some c3, some d =>
                parseJStr fuel (charOfCodeUnit (((a * 16 + b) * 16 + c3) * 16 + d) :: acc) rest3
              | _, _, _, _ => none
            | _ => none
          else none
      else if c.toNat < 32 then none
      else parseJStr fuel (c :: acc) rest

/-- Digits prefix of the input (possibly empty). -/
def takeDigits (cs : List Char) : List Char × List Char :=
  (cs.takeWhile Char.isDigit, cs.dropWhile Char.isDigit)

/-- Natural number denoted by a digit list. -/
def digitsToNat (ds : List Char) : Nat :=
  ds.foldl (fun n c => n * 10 + (c.toNat - '0'.toNat)) 0

/-- Parse a JSON number per the grammar `json.loads` enforces
(`-?(0|[1-9][0-9]*)(\.[0-9]+)?([eE][+-]?[0-9]+)?`), producing a Python
int when there is no fraction or exponent and a float (exact rational)
otherwise. Returns the value and the remaining input. -/
def parseJNum (cs : List Char) : Option (Json × List Char) :=
  let (neg, cs1) :=
    match cs with
    | '-' :: rest => (true, rest)
    | _ => (false, cs)
  match cs1 with
  | [] => none
  | c :: _ =>
    if ¬ c.isDigit then none
    else
      let (ip, cs2) :=
        if c = '0' then ([c], cs1.tail)
        else takeDigits cs1
      -- reject leading zeros such as 01 (takeDigits from '0' handled above)
      let fracPart : Option (List Char × List Char) :=
        match cs2 with
        | '.' :: cs3 =>
          let (fd, cs4) := takeDigits cs3
          if fd = [] then none else some (fd, cs4)
        | _ => some ([], cs2)
      match fracPart with
      | none => none
      | some (fd, cs5) =>
        let expPart : Option (Bool × List Char × List Char) :=
          match cs5 with
          | e :: cs6 =>
            if e = 'e' ∨ e = 'E' then
              let (esign, cs7) :=
                match cs6 with
                | '+' :: r => (false, r)
                | '-' :: r => (true, r)
                | _ => (false, cs6)
              let (ed, cs8) := takeDigits cs7
              if ed = [] then none else some (esign, ed, cs8)
            else some (false, [], cs5)
          | [] => some (false, [], cs5)
        match expPart with
        | none => none
        | some (esign, ed, rest) =>
          let mantissa : Int :=
            let m : Int := Int.ofNat (digitsToNat (ip ++ fd))
            if neg then -m else m
          if fd = [] ∧ ed = [] then
            some (Json.jint mantissa, rest)
          else
            let e10 : Int :=
              (if esign then -(Int.ofNat (digitsToNat ed)) else Int.ofNat (digitsToNat ed))
                - Int.ofNat fd.length
            some (Json.jfloat ((mantissa : ℚ) * (10 : ℚ) ^ e10), rest)

mutual

/-- Parse one JSON value at the head of the input (no leading whitespace).
Models the recursive descent of Python's json scanner, including the
`NaN` / `Infinity` / `-Infinity` constants it accepts. -/
def parseJVal (fuel : Nat) (cs : List Char) : Option (Json × List Char) :=
  match fuel with
  | 0 => none
  | fuel + 1 =>
    match cs with
    | [] => none
    | c :: rest =>
      if c = '{' then parseJObj fuel (rest.dropWhile jsonWs)
      else if c = '[' then parseJArr fuel (rest.dropWhile jsonWs)
      else if c = '"' then
        match parseJStr (rest.length + 1) [] rest with
        | some (s, r) => some (Json.jstr s, r)
        | none => none
      else if cs.take 4 = ['t', 'r', 'u', 'e'] then some (Json.jbool true, cs.drop 4)
      else if cs.take 5 = ['f', 'a', 'l', 's', 'e'] then some (Json.jbool false, cs.drop 5)
      else if cs.take 4 = ['n', 'u', 'l', 'l'] then some (Json.null, cs.drop 4)
      else if cs.take 3 = ['N', 'a', 'N'] then some (Json.jnan, cs.drop 3)
      else if cs.take 8 = ['I', 'n', 'f', 'i', 'n', 'i', 't', 'y'] then
        some (Json.jinf false, cs.drop 8)
      else if cs.take 9 = ['-', 'I', 'n', 'f', 'i', 'n', 'i', 't', 'y'] then
        some (Json.jinf true, cs.drop 9)
      else parseJNum cs

/-- Parse the inside of a JSON object after `{` (leading whitespace already
skipped): either an immediate `}` or a member list. -/
def parseJObj (fuel : Nat) (cs : List Char) : Option (Json × List Char) :=
  match fuel with
  | 0 => none
  | fuel + 1 =>
    match cs with
    | '}' :: rest => some (Json.jobj [], rest)
    | _ => parseJMembers fuel [] cs

/-- Parse object members `"key": value (, "key": value)* }`. -/
def parseJMembers (fuel : Nat) (acc : List (String × Json)) (cs : List Char) :
    Option (Json × List Char) :=
  match fuel with
  | 0 => none
  | fuel + 1 =>
    match cs with
    | '"' :: rest =>
      match parseJStr (rest.length + 1) [] rest with
      | none => none
      | some (k, r1) =>
        match r1.dropWhile jsonWs with
        | ':' :: r2 =>
          match parseJVal fuel (r2.dropWhile jsonWs) with
          | none => none
          | some (v, r3) =>
            let acc := objInsert acc k v
            match r3.dropWhile jsonWs with
            | ',' :: r4 => parseJMembers fuel acc (r4.dropWhile jsonWs)
            | '}' :: r4 => some (Json.jobj acc, r4)
            | _ => none
        | _ => none
    | _ => none

/-- Parse the inside of a JSON array after `[` (leading whitespace already
skipped): either an immediate `]` or an element list. A comma must be
followed by a value, so trailing commas are rejected exactly as
`json.loads` rejects them. -/
def parseJArr (fuel : Nat) (cs : List Char) : Option (Json × List Char) :=
  match fuel with
  | 0 => none
  | fuel + 1 =>
    match cs with
    | ']' :: rest => some (Json.jarr [], rest)
    | _ => parseJElems fuel [] cs

/-- Parse array elements `value (, value)* ]`. -/
def parseJElems (fuel : Nat) (acc : List Json) (cs : List Char) :
    Option (Json × List Char) :=
  match fuel with
  | 0 => none
  | fuel + 1 =>
    match parseJVal fuel cs with
    | none => none
    | some (v, r1) =>
      match r1.dropWhile jsonWs with
      | ',' :: r2 => parseJElems fuel (acc ++ [v]) (r2.dropWhile jsonWs)
      | ']' :: r2 => some (Json.jarr (acc ++ [v]), r2)
      | _ => none

end

/-- Model of Python `json.loads`: skip surrounding whitespace, parse one
value, require that nothing but whitespace follows. `none` models a
raised `json.JSONDecodeError`. -/
def pyJsonLoads (s : String) : Option Json :=
  match parseJVal (4 * s.length + 16) (s.data.dropWhile jsonWs) with
  | some (j, rest) => if rest.dropWhile jsonWs = [] then some j else none
  | none => none

/-! ## The regex repair passes of `summarizer.py` -/

/-- Characters allowed inside the capture group of the repair pattern
`(\[|\,)\s*([^"\[\]{},:]+?)\s*(\]|\,)`: everything except the seven
excluded characters. -/
def repairClassOK (c : Char) : Bool :=
  ¬ (c = '"' || c = '[' || c = ']' || c = '{' || c = '}' || c = ',' || c = ':')

/-- Lazy extension of the capture group: after the group matched `acc`
(reversed), first try to finish with `\s*(\]|\,)`; on failure extend the
group by one character of its class (which includes whitespace). Mirrors
the backtracking order of the lazy `+?` quantifier. -/
def scanGroup (fuel : Nat) (acc : List Char) (cs : List Char) :
    Option (List Char × Char × List Char) :=
  match fuel with
  | 0 => none
  | fuel + 1 =>
    match cs.dropWhile isPyWs with
    | t :: rest =>
      if t = ']' || t = ',' then some (acc, t, rest)
      else
        match cs with
        | c :: cs2 => if repairClassOK c then scanGroup fuel (acc ++ [c]) cs2 else none
        | [] => none
    | [] =>
      match cs with
      | c :: cs2 => if repairClassOK c then scanGroup fuel (acc ++ [c]) cs2 else none
      | [] => none

/-- Attempt to match `\s*([^"\[\]{},:]+?)\s*(\]|\,)` at `cs` (the position
right after an opening `[` or `,`). The leading `\s*` is greedy: the
group starts at the first non-space character when possible; when the
first non-space character is already `]` or `,` the star backtracks by
one so the group captures the last whitespace character (the group must
be non-empty). Returns (captured group, closing delimiter, rest). -/
def matchRepairAt (cs : List Char) : Option (List Char × Char × List Char) :=
  let ws := cs.takeWhile isPyWs
  match cs.dropWhile isPyWs with
  | [] => none
  | c :: rest =>
    if c = ']' || c = ',' then
      match ws.getLast? with
      | some w => some ([w], c, rest)
      | none => none
    else if repairClassOK c then scanGroup (rest.length + 1) [c] rest
    else none

/-- One left-to-right pass of
`re.sub(r'(\[|\,)\s*([^"\[\]{},:]+?)\s*(\]|\,)', r'\1 "\2" \3', ...)`:
at each `[` or `,`, try the match; on success emit the replacement and
continue scanning after the matched span (so the closing `,` of a match
is consumed and cannot open the next one); on failure advance one
character. -/
def repairScan (fuel : Nat) (cs : List Char) : List Char :=
  match fuel with
  | 0 => cs
  | fuel + 1 =>
    match cs with
    | [] => []
    | c :: rest =>
      if c = '[' || c = ',' then
        match matchRepairAt rest with
        | some (g, t, after) =>
          c :: ' ' :: '"' :: (g ++ '"' :: ' ' :: t :: repairScan fuel after)
        | none => c :: repairScan fuel rest
      else c :: repairScan fuel rest

/-- The single inline repair applied by `summarize_transcript` (line 435):
quote unquoted tokens sitting between array delimiters. -/
def applyRepairRegex (s : String) : String :=
  String.mk (repairScan (s.length + 1) s.data)

/-- One pass of `re.sub(r',\s*X', 'X', ...)` for a closing character `X`
(`}` or `]`): a comma whose next non-space character is `X` is removed
together with the whitespace; otherwise scanning advances one character. -/
def removeCommaBefore (close : Char) (fuel : Nat) (cs : List Char) : List Char :=
  match fuel with
  | 0 => cs
  | fuel + 1 =>
    match cs with
    | [] => []
    | c :: rest =>
      if c = ',' then
        match rest.dropWhile isPyWs with
        | d :: rest2 =>
          if d = close then close :: removeCommaBefore close fuel rest2
          else c :: removeCommaBefore close fuel rest
        | [] => c :: removeCommaBefore close fuel rest
      else c :: removeCommaBefore close fuel rest

/-- ASCII identifier start, the `[a-zA-Z_]` of the key-quoting pattern. -/
def isIdentStart (c : Char) : Bool :=
  ('a' ≤ c ∧ c ≤ 'z') || ('A' ≤ c ∧ c ≤ 'Z') || c = '_'

/-- ASCII identifier character, the `[a-zA-Z0-9_]` of the key-quoting
pattern. -/
def isIdentChar (c : Char) : Bool :=
  isIdentStart c || ('0' ≤ c ∧ c ≤ '9')

/-- One pass of `re.sub(r'(\{|\,)\s*([a-zA-Z_][a-zA-Z0-9_]*)\s*:', r'\1 "\2":', ...)`:
after `{` or `,`, skip whitespace, read a maximal identifier, skip
whitespace, and require `:`; on success the span is replaced by the
delimiter, a space, the quoted identifier and the colon. -/
def quoteKeysScan (fuel : Nat) (cs : List Char) : List Char :=
  match fuel with
  | 0 => cs
  | fuel + 1 =>
    match cs with
    | [] => []
    | c :: rest =>
      if c = '{' || c = ',' then
        let afterWs := rest.dropWhile isPyWs
        let ident := afterWs.takeWhile isIdentChar
        let tail1 := (afterWs.dropWhile isIdentChar).dropWhile isPyWs
        match ident with
        | i0 :: _ =>
          if isIdentStart i0 then
            match tail1 with
            | ':' :: rest2 =>
              c :: ' ' :: '"' :: (ident ++ '"' :: ':' :: quoteKeysScan fuel rest2)
            | _ => c :: quoteKeysScan fuel rest
          else c :: quoteKeysScan fuel rest
        | [] => c :: quoteKeysScan fuel rest
      else c :: quoteKeysScan fuel rest

/-- One pass of `re.sub(r"'([^']*)'", r'"\1"', ...)`: a pair of single
quotes (with no single quote between them) becomes a pair of double
quotes around the unchanged contents. -/
def singleQuotesScan (fuel : Nat) (cs : List Char) : List Char :=
  match fuel with
  | 0 => cs
  | fuel + 1 =>
    match cs with
    | [] => []
    | c :: rest =>
      if c = '\'' then
        let mid := rest.takeWhile (fun d => ¬ d = '\'')
        match rest.dropWhile (fun d => ¬ d = '\'') with
        | _ :: rest2 => '"' :: (mid ++ '"' :: singleQuotesScan fuel rest2)
        | [] => c :: singleQuotesScan fuel rest
      else c :: singleQuotesScan fuel rest

/-- `OllamaSummarizer._repair_json`: the four repair patterns applied in
order (array elements, trailing comma before closing brace, trailing
comma before closing bracket, unquoted keys, single quotes), then a
`json.loads` check; the repaired text is returned only if it parses. -/
def _repair_json (s : String) : Option String :=
  let r1 := applyRepairRegex s
  let r2 := String.mk (removeCommaBefore '}' (r1.length + 1) r1.data)
  let r3 := String.mk (removeCommaBefore ']' (r2.length + 1) r2.data)
  let r4 := String.mk (quoteKeysScan (r3.length + 1) r3.data)
  let r5 := String.mk (singleQuotesScan (r4.length + 1) r4.data)
  match pyJsonLoads r5 with
  | some _ => some r5
  | none => none

/-! ## The pydantic data model of `models.py` -/

/-- `models.ActionItem`: description required, assignee `Optional[str]`
defaulting to the empty string, deadline `Optional[str]` defaulting to
null. (`meeting_id` and `date`, generated nondeterministically by
factories, are outside the claims and not modelled.) -/
structure ActionItem where
  description : String
  assignee : Option String := some ""
  deadline : Option String := none
deriving Repr, DecidableEq

/-- `models.Decision` (used for key points). -/
structure Decision where
  decision : String
  assignee : Option String := some ""
  context : String
deriving Repr, DecidableEq

/-- `models.DiscussionArea`. -/
structure DiscussionArea where
  title : String
  analysis : String
deriving Repr, DecidableEq

/-- `models.MeetingTranscript` without the nondeterministic `meeting_id`
and `date` factory fields, which no claim touches. -/
structure MeetingTranscript where
  duration : String
  overview : String
  participants : List String
  discussion_areas : List DiscussionArea := []
  key_points : List Decision
  next_steps : List ActionItem
  transcript : String
deriving Repr, DecidableEq

/-- A Python value passed as a keyword argument to the `MeetingTranscript`
constructor at the call sites in `summarizer.py`: either a raw value that
came out of `json.loads`, or an already-built Python object (string, int,
or a list of model objects). -/
inductive PyVal where
  | vJson (j : Json)
  | vStr (s : String)
  | vInt (n : Int)
  | vStrList (xs : List String)
  | vActions (xs : List ActionItem)
  | vDecisions (xs : List Decision)
  | vAreas (xs : List DiscussionArea)

/-- Keyword lookup in a kwargs list. -/
def kwLookup (kw : List (String × PyVal)) (k : String) : Option PyVal :=
  (kw.find? (fun x => x.1 = k)).map Prod.snd

/-- pydantic validation of a required `str` field: present and a string,
otherwise a ValidationError. -/
def validStr : Option PyVal → Except PyErr String
  | some (.vStr s) => .ok s
  | some (.vJson (.jstr s)) => .ok s
  | _ => .error .validationError

/-- pydantic validation of a required `List[str]` field. -/
def validStrList : Option PyVal → Except PyErr (List String)
  | some (.vStrList xs) => .ok xs
  | some (.vJson (.jarr js)) =>
    js.mapM (fun j =>
      match j with
      | .jstr s => Except.ok s
      | _ => Except.error PyErr.validationError)
  | _ => .error .validationError

/-- pydantic validation of a required `List[ActionItem]` field at the call
sites that occur (an already-built list of `ActionItem`). -/
def validActions : Option PyVal → Except PyErr (List ActionItem)
  | some (.vActions xs) => .ok xs
  | _ => .error .validationError

/-- pydantic validation of a required `List[Decision]` field. -/
def validDecisions : Option PyVal → Except PyErr (List Decision)
  | some (.vDecisions xs) => .ok xs
  | _ => .error .validationError

/-- pydantic validation of the optional `List[DiscussionArea]` field
(absent means the default `[]`). -/
def validAreas : Option PyVal → Except PyErr (List DiscussionArea)
  | some (.vAreas xs) => .ok xs
  | none => .ok []
  | some _ => .error .validationError

/-- The pydantic `MeetingTranscript(**kwargs)` constructor: every required
field must be present with a valid type or a ValidationError is raised;
unknown keyword arguments are ignored (pydantic's default `extra`
behavior); `discussion_areas` defaults to `[]`. -/
def pyMeetingTranscript (kw : List (String × PyVal)) : Except PyErr MeetingTranscript :=
  match validStr (kwLookup kw "duration") with
  | .error e => .error e
  | .ok dur =>
  match validStr (kwLookup kw "overview") with
  | .error e => .error e
  | .ok ov =>
  match validStrList (kwLookup kw "participants") with
  | .error e => .error e
  | .ok parts =>
  match validAreas (kwLookup kw "discussion_areas") with
  | .error e => .error e
  | .ok areas =>
  match validDecisions (kwLookup kw "key_points") with
  | .error e => .error e
  | .ok kps =>
  match validActions (kwLookup kw "next_steps") with
  | .error e => .error e
  | .ok nss =>
  match validStr (kwLookup kw "transcript") with
  | .error e => .error e
  | .ok tr => .ok ⟨dur, ov, parts, areas, kps, nss, tr⟩

/-! ## The Structured Mapper (summarizer.py lines 456-509) -/

/-- Lookup in a parsed JSON object's key/value list (keys are unique). -/
def objLookup (kvs : List (String × Json)) (k : String) : Option Json :=
  (kvs.find? (fun kv => kv.1 = k)).map Prod.snd

/-- Python `dict.get(k, default)` on a parsed JSON object. -/
def objGetD (kvs : List (String × Json)) (k : String) (dflt : Json) : Json :=
  (objLookup kvs k).getD dflt

/-- `structured_data.get(k, default)`: an AttributeError if the parsed
value is not a dict at all. -/
def pyDictGetD (j : Json) (k : String) (dflt : Json) : Except PyErr Json :=
  match j with
  | .jobj kvs => .ok (objGetD kvs k dflt)
  | _ => .error .attributeError

/-- Python `for x in j`: arrays yield elements, strings yield their
characters as 1-character strings, dicts yield their keys; other values
raise TypeError. -/
def pyIter : Json → Except PyErr (List Json)
  | .jarr xs => .ok xs
  | .jstr s => .ok (s.data.map (fun c => Json.jstr (String.mk [c])))
  | .jobj kvs => .ok (kvs.map (fun kv => Json.jstr kv.1))
  | _ => .error .typeError

/-- Python truthiness of a JSON-derived value. -/
def pyTruthy : Json → Bool
  | .null => false
  | .jbool b => b
  | .jint n => ¬ n = 0
  | .jfloat q => ¬ q = 0
  | .jnan => true
  | .jinf _ => true
  | .jstr s => ¬ s = ""
  | .jarr [] => false
  | .jarr (_ :: _) => true
  | .jobj [] => false
  | .jobj (_ :: _) => true

/-- pydantic validation of a `str` field fed a JSON-derived value
(pydantic v2 does not coerce non-strings to str). -/
def asStr : Json → Except PyErr String
  | .jstr s => .ok s
  | _ => .error .validationError

/-- pydantic validation of an `Optional[str]` field fed a JSON-derived
value. -/
def asOptStr : Json → Except PyErr (Option String)
  | .null => .ok none
  | .jstr s => .ok (some s)
  | _ => .error .validationError

/-- One `next_steps` entry (lines 459-464):
`ActionItem(description=action_data.get('description', ''),
assignee=action_data.get('assignee', '') or '',
deadline=action_data.get('deadline'))`. A non-dict entry raises
AttributeError on `.get`. -/
def parseActionEntry (p : Json) : Except PyErr ActionItem :=
  match p with
  | .jobj kvs =>
    let descJ := objGetD kvs "description" (.jstr "")
    let aJraw := objGetD kvs "assignee" (.jstr "")
    let aJ := if pyTruthy aJraw then aJraw else .jstr ""
    let dlJ := objGetD kvs "deadline" Json.null
    match asStr descJ with
    | .error e => .error e
    | .ok desc =>
    match asOptStr aJ with
    | .error e => .error e
    | .ok a =>
    match asOptStr dlJ with
    | .error e => .error e
    | .ok dl => .ok ⟨desc, a, dl⟩
  | _ => .error .attributeError

/-- The `next_steps` loop: entries processed in order, the first error
aborts. -/
def parseActions : List Json → Except PyErr (List ActionItem)
  | [] => .ok []
  | p :: rest =>
    match parseActionEntry p with
    | .error e => .error e
    | .ok a =>
      match parseActions rest with
      | .error e => .error e
      | .ok as_ => .ok (a :: as_)

/-- One `key_points` entry (lines 468-482): a string maps to a bare
`Decision`, a dict maps its `point`/`context` keys, anything else is
skipped (`none`). -/
def parseKeyPoint (p : Json) : Except PyErr (Option Decision) :=
  match p with
  | .jstr s => .ok (some ⟨s, some "", ""⟩)
  | .jobj kvs =>
    match asStr (objGetD kvs "point" (.jstr "")) with
    | .error e => .error e
    | .ok pt =>
      match asStr (objGetD kvs "context" (.jstr "")) with
      | .error e => .error e
      | .ok cx => .ok (some ⟨pt, some "", cx⟩)
  | _ => .ok none

/-- The `key_points` loop. -/
def parseKeyPoints : List Json → Except PyErr (List Decision)
  | [] => .ok []
  | p :: rest =>
    match parseKeyPoint p with
    | .error e => .error e
    | .ok cur =>
      match parseKeyPoints rest with
      | .error e => .error e
      | .ok more =>
        .ok (match cur with | some d => d :: more | none => more)

/-- One `discussion_areas` entry (lines 487-492): dicts map their
`title`/`analysis` keys, anything else is skipped. -/
def parseAreaEntry (p : Json) : Except PyErr (Option DiscussionArea) :=
  match p with
  | .jobj kvs =>
    match asStr (objGetD kvs "title" (.jstr "")) with
    | .error e => .error e
    | .ok ti =>
      match asStr (objGetD kvs "analysis" (.jstr "")) with
      | .error e => .error e
      | .ok an => .ok (some ⟨ti, an⟩)
  | _ => .ok none

/-- The `discussion_areas` loop. -/
def parseAreas : List Json → Except PyErr (List DiscussionArea)
  | [] => .ok []
  | p :: rest =>
    match parseAreaEntry p with
    | .error e => .error e
    | .ok cur =>
      match parseAreas rest with
      | .error e => .error e
      | .ok more =>
        .ok (match cur with | some a => a :: more | none => more)

/-- The body of the `try` block at lines 456-505: build the action,
decision and discussion-area lists in source order, then construct the
`MeetingTranscript`. Any raised error escapes to the surrounding
handler. -/
def mapperBody (j : Json) (t : String) (d : Int) : Except PyErr MeetingTranscript :=
  match pyDictGetD j "next_steps" (Json.jarr []) with
  | .error e => .error e
  | .ok ns =>
  match pyIter ns with
  | .error e => .error e
  | .ok nsItems =>
  match parseActions nsItems with
  | .error e => .error e
  | .ok actions =>
  match pyDictGetD j "key_points" (Json.jarr []) with
  | .error e => .error e
  | .ok kp =>
  match pyIter kp with
  | .error e => .error e
  | .ok kpItems =>
  match parseKeyPoints kpItems with
  | .error e => .error e
  | .ok decisions =>
  match pyDictGetD j "discussion_areas" (Json.jarr []) with
  | .error e => .error e
  | .ok da =>
  match pyIter da with
  | .error e => .error e
  | .ok daItems =>
  match parseAreas daItems with
  | .error e => .error e
  | .ok areas =>
  match pyDictGetD j "overview" (Json.jstr "") with
  | .error e => .error e
  | .ok ov =>
  match pyDictGetD j "participants" (Json.jarr []) with
  | .error e => .error e
  | .ok parts =>
    pyMeetingTranscript
      [("duration", .vStr (toString d ++ " minutes")),
       ("overview", .vJson ov),
       ("participants", .vJson parts),
       ("discussion_areas", .vAreas areas),
       ("next_steps", .vActions actions),
       ("key_points", .vDecisions decisions),
       ("transcript", .vStr t)]

/-- The Structured Mapper with its surrounding `try/except` (lines
456-509): a successful build returns the object, any error is caught and
reported by returning `None`. -/
def mapStructured (j : Json) (t : String) (d : Int) : Except PyErr (Option MeetingTranscript) :=
  match mapperBody j t d with
  | .ok mt => .ok (some mt)
  | .error _ => .ok none

/-! ## Response cleaning and the orchestrator (summarize_transcript) -/

/-- The fixed overview of the empty-transcript placeholder (line 352). -/
def noTranscriptOverview : String :=
  "No transcript was generated for this recording. This may be due to poor audio quality, silence throughout the recording, or technical issues with the speech recognition system."

/-- The fixed apologetic overview of the tier-1 fallback summary (line 446). -/
def fallbackOverview : String :=
  "Meeting transcript recorded but detailed analysis failed. Content appears to be in a non-English language or format not fully supported."

/-- Markdown fence stripping (lines 411-414): if the text starts with a
fenced block marker, remove every occurrence of the markers and strip. -/
def cleanFences (s : String) : String :=
  if strStartsWith s "```json" then
    pyStrip (pyReplace (pyReplace s "```json" "") "```" "")
  else if strStartsWith s "```" then pyStrip (pyReplace s "```" "")
  else s

/-- Preamble/postamble dropping (lines 417-421): when both braces occur,
slice from the first opening brace to the last closing brace and strip. -/
def cleanBraces (s : String) : String :=
  let cs := s.data
  match cs.findIdx? (fun c => c = '{'), cs.reverse.findIdx? (fun c => c = '}') with
  | some i, some jr =>
    let j := cs.length - 1 - jr
    pyStrip (String.mk ((cs.drop i).take (j + 1 - i)))
  | _, _ => s

/-- The Response Cleaner applied to the raw model output: the `.strip()`
of line 403 followed by fence stripping and brace slicing. -/
def cleanResponse (raw : String) : String :=
  cleanBraces (cleanFences (pyStrip raw))

/-- Dynamic timeout (lines 365-367): 30 minutes base, 10 more minutes per
10k characters of transcript, capped at 2 hours. -/
def computeTimeout (L : Nat) : Nat :=
  min (1800 + (L / 10000) * 600) 7200

/-- The model endpoint as seen through `ollama.Client().chat`: given the
timeout option and the attempt number, the call either returns the
response content or raises. Attempt-indexing also absorbs the
`_ensure_ollama_ready` / client-recreation work done before retries,
which raises through the same handler. -/
def ChatOracle : Type := Nat → Nat → Except PyErr String

/-- The bounded retry loop (lines 371-401): up to 3 attempts, a 5-second
`time.sleep` between consecutive ones, the last failure re-raised.
Returns the outcome, the number of chat calls made, and the sleeps
performed. -/
def retryChat (call : Nat → Except PyErr String) :
    Except PyErr String × Nat × List Nat :=
  match call 0 with
  | .ok r => (.ok r, 1, [])
  | .error _ =>
    match call 1 with
    | .ok r => (.ok r, 2, [5])
    | .error _ =>
      match call 2 with
      | .ok r => (.ok r, 3, [5, 5])
      | .error e => (.error e, 3, [5, 5])

/-- The kwargs of the placeholder construction at lines 351-357. The call
passes `overview`, `participants` and the stale keyword arguments
`action_items`, `decisions`, `duration_minutes`; the required fields
`duration`, `key_points`, `next_steps` and `transcript` are absent. -/
def placeholderKwargs (d : Int) : List (String × PyVal) :=
  [("overview", .vStr noTranscriptOverview),
   ("participants", .vStrList []),
   ("action_items", .vActions []),
   ("decisions", .vDecisions []),
   ("duration_minutes", .vInt d)]

/-- The kwargs of the tier-1 fallback construction at lines 444-451. -/
def fallbackKwargs (t : String) (d : Int) : List (String × PyVal) :=
  [("duration", .vStr (toString d ++ " minutes")),
   ("overview", .vStr fallbackOverview),
   ("participants", .vStrList []),
   ("next_steps", .vActions []),
   ("key_points", .vDecisions []),
   ("transcript", .vStr t)]

/-- Processing of a received response (lines 403-509): strip, clean,
parse; on parse failure apply the inline repair regex and parse again;
on success run the Structured Mapper, otherwise build the tier-1
fallback summary. -/
def processResponse (raw : String) (t : String) (d : Int) :
    Except PyErr (Option MeetingTranscript) :=
  let ct := cleanResponse raw
  match pyJsonLoads ct with
  | some j => mapStructured j t d
  | none =>
    match pyJsonLoads (applyRepairRegex ct) with
    | some j => mapStructured j t d
    | none =>
      match pyMeetingTranscript (fallbackKwargs t d) with
      | .ok mt => .ok (some mt)
      | .error e => .error e

/-- The body of the outer `try` of `summarize_transcript` (lines 347-509):
the empty/sentinel short-circuit, the retry loop around the model call,
and response processing. Also reports how many chat calls were made and
which sleeps happened. -/
def summarizeBody (o : ChatOracle) (t : String) (d : Int) :
    Except PyErr (Option MeetingTranscript) × Nat × List Nat :=
  if t = "" ∨ pyStrip t = "" ∨ pyStrip (pyLower t) = "none" then
    (match pyMeetingTranscript (placeholderKwargs d) with
     | .ok mt => .ok (some mt)
     | .error e => .error e,
     0, [])
  else
    match retryChat (o (computeTimeout t.length)) with
    | (.error e, n, sl) => (.error e, n, sl)
    | (.ok raw, n, sl) => (processResponse raw t d, n, sl)

/-- The observable outcome of one `summarize_transcript` call. -/
structure SummarizeOutcome where
  result : Except PyErr (Option MeetingTranscript)
  chatCalls : Nat
  sleeps : List Nat
deriving Repr

/-- `OllamaSummarizer.summarize_transcript`: the body wrapped in the outer
`except Exception` handler of lines 511-518, which logs (all the logging
expressions are total for a string transcript) and returns `None`. -/
def summarize_transcript (o : ChatOracle) (t : String) (d : Int) : SummarizeOutcome :=
  match summarizeBody o t d with
  | (.ok v, n, sl) => ⟨.ok v, n, sl⟩
  | (.error _, n, sl) => ⟨.ok none, n, sl⟩

/-! ## Serialization to the persisted JSON shape (models.py model_dump) -/

/-- An `Optional[str]` under `model_dump`: null or the string. -/
def optStrJson : Option String → Json
  | none => Json.null
  | some s => Json.jstr s

/-- `ActionItem.model_dump()`. -/
def dumpAction (a : ActionItem) : Json :=
  Json.jobj
    [("description", Json.jstr a.description),
     ("assignee", optStrJson a.assignee),
     ("deadline", optStrJson a.deadline)]

/-- `Decision.model_dump()`. -/
def dumpDecision (k : Decision) : Json :=
  Json.jobj
    [("decision", Json.jstr k.decision),
     ("assignee", optStrJson k.assignee),
     ("context", Json.jstr k.context)]

/-- `DiscussionArea.model_dump()`. -/
def dumpArea (a : DiscussionArea) : Json :=
  Json.jobj
    [("title", Json.jstr a.title),
     ("analysis", Json.jstr a.analysis)]

/-- `MeetingTranscript.model_dump()` restricted to the deterministic
fields: the persisted JSON shape consumed in round-trips. -/
def dumpMeetingTranscript (m : MeetingTranscript) : Json :=
  Json.jobj
    [("duration", Json.jstr m.duration),
     ("overview", Json.jstr m.overview),
     ("participants", Json.jarr (m.participants.map Json.jstr)),
     ("discussion_areas", Json.jarr (m.discussion_areas.map dumpArea)),
     ("key_points", Json.jarr (m.key_points.map dumpDecision)),
     ("next_steps", Json.jarr (m.next_steps.map dumpAction)),
     ("transcript", Json.jstr m.transcript)]

/-- Entries of `key_points` that the mapper's isinstance checks skip:
neither a string nor a dict. -/
def isSkippedKeyPoint : Json → Bool
  | .jstr _ => false
  | .jobj _ => false
  | _ => true

/-- Entries of `discussion_areas` that the mapper skips: anything that is
not a dict. -/
def isSkippedArea : Json → Bool
  | .jobj _ => false
  | _ => true

/-- Entries of `next_steps` that are not dicts (on which `.get` raises). -/
def isNonObjEntry : Json → Bool
  | .jobj _ => false
  | _ => true

/-! ## Helper lemmas -/

lemma parseKeyPoint_skipped (j : Json) (h : isSkippedKeyPoint j = true) :
    parseKeyPoint j = .ok none := by
  cases j <;> simp_all [isSkippedKeyPoint, parseKeyPoint]

lemma parseKeyPoints_cons_skipped (j : Json) (ys : List Json)
    (h : isSkippedKeyPoint j = true) :
    parseKeyPoints (j :: ys) = parseKeyPoints ys := by
  rw [parseKeyPoints, parseKeyPoint_skipped j h]
  cases hys : parseKeyPoints ys <;> simp

lemma parseKeyPoints_append_skipped (xs ys : List Json) (j : Json)
    (h : isSkippedKeyPoint j = true) :
    parseKeyPoints (xs ++ j :: ys) = parseKeyPoints (xs ++ ys) := by
  induction xs with
  | nil => simpa using parseKeyPoints_cons_skipped j ys h
  | cons x xs ih =>
    simp only [List.cons_append, parseKeyPoints, List.append_eq, ih]

lemma parseAreaEntry_skipped (j : Json) (h : isSkippedArea j = true) :
    parseAreaEntry j = .ok none := by
  cases j <;> simp_all [isSkippedArea, parseAreaEntry]

lemma parseAreas_cons_skipped (j : Json) (ys : List Json)
    (h : isSkippedArea j = true) :
    parseAreas (j :: ys) = parseAreas ys := by
  rw [parseAreas, parseAreaEntry_skipped j h]
  cases hys : parseAreas ys <;> simp

lemma parseAreas_append_skipped (xs ys : List Json) (j : Json)
    (h : isSkippedArea j = true) :
    parseAreas (xs ++ j :: ys) = parseAreas (xs ++ ys) := by
  induction xs with
  | nil => simpa using parseAreas_cons_skipped j ys h
  | cons x xs ih =>
    simp only [List.cons_append, parseAreas, List.append_eq, ih]

lemma parseActionEntry_nonobj (j : Json) (h : isNonObjEntry j = true) :
    parseActionEntry j = .error .attributeError := by
  cases j <;> simp_all [isNonObjEntry, parseActionEntry]

lemma mapStructured_total (j : Json) (t : String) (d : Int) :
    ∃ r, mapStructured j t d = .ok r := by
  unfold mapStructured
  cases mapperBody j t d <;> exact ⟨_, rfl⟩

lemma parseActionEntry_dump (a : ActionItem) (h : ¬ a.assignee = none) :
    parseActionEntry (dumpAction a) = .ok a := by
  rcases a with ⟨desc, asg, dl⟩
  rcases asg with _ | s
  · simp at h
  · by_cases hs : s = ""
    · subst hs
      cases dl <;> rfl
    · have ht : pyTruthy (Json.jstr s) = true := by
        simp [pyTruthy, hs]
      cases dl <;>
        simp [dumpAction, parseActionEntry, objGetD, objLookup, optStrJson,
          List.find?, ht, asStr, asOptStr]

lemma parseActions_dump (l : List ActionItem)
    (h : ∀ a ∈ l, ¬ a.assignee = none) :
    parseActions (l.map dumpAction) = .ok l := by
  induction l with
  | nil => rfl
  | cons a l ih =>
    have ha := h a (by simp)
    have hl : ∀ x ∈ l, ¬ x.assignee = none := fun x hx => h x (by simp [hx])
    simp only [List.map_cons, parseActions, parseActionEntry_dump a ha, ih hl]

lemma parseKeyPoint_dump (k : Decision) (h1 : k.decision = "")
    (h2 : k.assignee = some "") :
    parseKeyPoint (dumpDecision k) = .ok (some k) := by
  rcases k with ⟨dec, asg, cx⟩
  simp only at h1 h2
  subst h1; subst h2
  rfl

lemma parseKeyPoints_dump (l : List Decision)
    (h : ∀ k ∈ l, k.decision = "" ∧ k.assignee = some "") :
    parseKeyPoints (l.map dumpDecision) = .ok l := by
  induction l with
  | nil => rfl
  | cons k l ih =>
    have hk := h k (by simp)
    have hl : ∀ x ∈ l, x.decision = "" ∧ x.assignee = some "" :=
      fun x hx => h x (by simp [hx])
    simp only [List.map_cons, parseKeyPoints, parseKeyPoint_dump k hk.1 hk.2, ih hl]

lemma parseAreaEntry_dump (a : DiscussionArea) :
    parseAreaEntry (dumpArea a) = .ok (some a) := by
  rcases a with ⟨ti, an⟩
  rfl

lemma parseAreas_dump (l : List DiscussionArea) :
    parseAreas (l.map dumpArea) = .ok l := by
  induction l with
  | nil => rfl
  | cons a l ih =>
    simp only [List.map_cons, parseAreas, parseAreaEntry_dump a, ih]

lemma validStrList_jarr (l : List String) :
    validStrList (some (.vJson (Json.jarr (l.map Json.jstr)))) = .ok l := by
  induction l with
  | nil => rfl
  | cons s l ih =>
    simp only [validStrList, List.map_cons, List.mapM_cons] at ih ⊢
    simp_all [bind, Except.bind, pure, Except.pure]

lemma pyMT_construct (dur ov tr : String) (pv : PyVal) (parts : List String)
    (areas : List DiscussionArea) (kps : List Decision) (nss : List ActionItem)
    (hp : validStrList (some pv) = Except.ok parts) :
    pyMeetingTranscript
      [("duration", PyVal.vStr dur), ("overview", PyVal.vJson (Json.jstr ov)),
       ("participants", pv), ("discussion_areas", PyVal.vAreas areas),
       ("next_steps", PyVal.vActions nss), ("key_points", PyVal.vDecisions kps),
       ("transcript", PyVal.vStr tr)] =
      Except.ok ⟨dur, ov, parts, areas, kps, nss, tr⟩ := by
  have hkw : kwLookup
      [("duration", PyVal.vStr dur), ("overview", PyVal.vJson (Json.jstr ov)),
       ("participants", pv), ("discussion_areas", PyVal.vAreas areas),
       ("next_steps", PyVal.vActions nss), ("key_points", PyVal.vDecisions kps),
       ("transcript", PyVal.vStr tr)] "participants" = some pv := rfl
  unfold pyMeetingTranscript
  rw [hkw, hp]
  rfl

lemma mapperBody_dump (m : MeetingTranscript) (t : String) (d : Int)
    (hkp : ∀ k ∈ m.key_points, k.decision = "" ∧ k.assignee = some "")
    (hns : ∀ a ∈ m.next_steps, ¬ a.assignee = none) :
    mapperBody (dumpMeetingTranscript m) t d =
      Except.ok ⟨toString d ++ " minutes", m.overview, m.participants,
        m.discussion_areas, m.key_points, m.next_steps, t⟩ := by
  simp only [mapperBody,
    show pyDictGetD (dumpMeetingTranscript m) "next_steps" (Json.jarr []) =
      Except.ok (Json.jarr (List.map dumpAction m.next_steps)) from rfl,
    show pyDictGetD (dumpMeetingTranscript m) "key_points" (Json.jarr []) =
      Except.ok (Json.jarr (List.map dumpDecision m.key_points)) from rfl,
    show pyDictGetD (dumpMeetingTranscript m) "discussion_areas" (Json.jarr []) =
      Except.ok (Json.jarr (List.map dumpArea m.discussion_areas)) from rfl,
    show pyDictGetD (dumpMeetingTranscript m) "overview" (Json.jstr "") =
      Except.ok (Json.jstr m.overview) from rfl,
    show pyDictGetD (dumpMeetingTranscript m) "participants" (Json.jarr []) =
      Except.ok (Json.jarr (List.map Json.jstr m.participants)) from rfl,
    pyIter,
    parseActions_dump m.next_steps hns,
    parseKeyPoints_dump m.key_points hkp,
    parseAreas_dump m.discussion_areas,
    pyMT_construct (toString d ++ " minutes") m.overview t
      (PyVal.vJson (Json.jarr (List.map Json.jstr m.participants))) m.participants
      m.discussion_areas m.key_points m.next_steps (validStrList_jarr m.participants)]

/-! ## Claim theorems -/

/-- C2, counterexample: a `next_steps` array containing a single malformed
(non-object) entry makes the whole mapping abort and return `None`
(`.ok none`), while the same object without that entry maps to a
`MeetingTranscript`; so a malformed entry is not merely skipped. -/
theorem C2_counterexample :
    mapStructured (Json.jobj [("next_steps", Json.jarr [Json.jstr "follow up"])]) "t" 1 =
      Except.ok none ∧
    mapStructured (Json.jobj [("next_steps", Json.jarr [])]) "t" 1 =
      Except.ok (some ⟨"1 minutes", "", [], [], [], [], "t"⟩) := by
  exact ⟨rfl, rfl⟩

/-- C2, amended: no exception escapes the mapping step (every outcome is a
returned value), and malformed entries of `key_points` and
`discussion_areas` are individually skipped without affecting the other
entries; but a `next_steps` entry that is not an object raises
`AttributeError`, which makes the whole mapping abort (the surrounding
handler then returns `None`). -/
theorem C2_amended :
    (∀ (j : Json) (t : String) (d : Int), ∃ r, mapStructured j t d = Except.ok r) ∧
    (∀ (xs ys : List Json) (j : Json), isSkippedKeyPoint j = true →
      parseKeyPoints (xs ++ j :: ys) = parseKeyPoints (xs ++ ys)) ∧
    (∀ (xs ys : List Json) (j : Json), isSkippedArea j = true →
      parseAreas (xs ++ j :: ys) = parseAreas (xs ++ ys)) ∧
    (∀ j : Json, isNonObjEntry j = true →
      parseActionEntry j = Except.error PyErr.attributeError) := by
  exact ⟨mapStructured_total, parseKeyPoints_append_skipped,
    parseAreas_append_skipped, parseActionEntry_nonobj⟩

/-- C2, witness for the amended theorem at concrete inputs. -/
theorem C2_witness :
    parseKeyPoints [Json.null] = parseKeyPoints [] ∧
    parseAreas [Json.jint 3] = parseAreas [] ∧
    parseActionEntry (Json.jstr "x") = Except.error PyErr.attributeError := by
  exact ⟨C2_amended.2.1 [] [] Json.null rfl,
    C2_amended.2.2.1 [] [] (Json.jint 3) rfl,
    C2_amended.2.2.2 (Json.jstr "x") rfl⟩

/-- C7: the computed model-call timeout is monotone non-decreasing in the
transcript length and never exceeds the 7200-second ceiling. -/
theorem C7_timeout_monotone_capped :
    (∀ L1 L2 : Nat, L1 ≤ L2 → computeTimeout L1 ≤ computeTimeout L2) ∧
    (∀ L : Nat, computeTimeout L ≤ 7200) := by
  constructor
  · intro L1 L2 h
    have hd : L1 / 10000 ≤ L2 / 10000 := Nat.div_le_div_right h
    exact min_le_min (by omega) le_rfl
  · intro L
    exact min_le_right _ _

/-- C7 witness at concrete lengths. -/
theorem C7_witness :
    computeTimeout 5000 ≤ computeTimeout 25000 ∧ computeTimeout 999999999 ≤ 7200 := by
  exact ⟨C7_timeout_monotone_capped.1 5000 25000 (by omega),
    C7_timeout_monotone_capped.2 999999999⟩

/-- C8: in a `next_steps` entry, an assignee that is missing or null maps
to the empty string (never null) and a missing deadline maps to null. -/
theorem C8_assignee_deadline_defaults (kvs : List (String × Json))
    (ha : objLookup kvs "assignee" = none ∨ objLookup kvs "assignee" = some Json.null)
    (hd : objLookup kvs "deadline" = none) :
    ∀ ai : ActionItem, parseActionEntry (Json.jobj kvs) = Except.ok ai →
      ai.assignee = some "" ∧ ai.deadline = none := by
  intro ai hok
  have haJ : objGetD kvs "assignee" (Json.jstr "") = Json.jstr "" ∨
      objGetD kvs "assignee" (Json.jstr "") = Json.null := by
    rcases ha with h | h <;> simp [objGetD, h]
  have hdJ : objGetD kvs "deadline" Json.null = Json.null := by
    simp [objGetD, hd]
  simp only [parseActionEntry] at hok
  rcases haJ with h | h <;>
    rw [h, hdJ] at hok <;>
    simp only [pyTruthy, asOptStr, ite_self, Bool.false_eq_true, if_false] at hok <;>
    rcases he : asStr (objGetD kvs "description" (Json.jstr "")) with e | desc <;>
    rw [he] at hok <;>
    simp only [Except.ok.injEq] at hok <;>
    first
    | exact absurd hok (by simp)
    | (rw [← hok]; exact ⟨rfl, rfl⟩)

/-- C8 witness: a concrete entry with no assignee and no deadline. -/
theorem C8_witness :
    (⟨"ship it", some "", none⟩ : ActionItem).assignee = some "" ∧
    (⟨"ship it", some "", none⟩ : ActionItem).deadline = none := by
  exact C8_assignee_deadline_defaults [("description", Json.jstr "ship it")]
    (Or.inl rfl) rfl ⟨"ship it", some "", none⟩ rfl

/-- C10: in the `key_points` mapping, a string entry becomes a record with
that string as statement and empty assignee/context; a dict entry maps
its `point` and `context` keys; an entry of any other shape is silently
dropped without affecting the other entries. -/
theorem C10_key_points_mapping :
    (∀ s : String, parseKeyPoint (Json.jstr s) = Except.ok (some ⟨s, some "", ""⟩)) ∧
    (∀ (kvs : List (String × Json)) (p c : String),
      objGetD kvs "point" (Json.jstr "") = Json.jstr p →
      objGetD kvs "context" (Json.jstr "") = Json.jstr c →
      parseKeyPoint (Json.jobj kvs) = Except.ok (some ⟨p, some "", c⟩)) ∧
    (∀ (xs ys : List Json) (j : Json), isSkippedKeyPoint j = true →
      parseKeyPoints (xs ++ j :: ys) = parseKeyPoints (xs ++ ys)) := by
  refine ⟨fun s => rfl, ?_, parseKeyPoints_append_skipped⟩
  intro kvs p c hp hc
  simp only [parseKeyPoint]
  rw [hp, hc]
  rfl

/-- C10 witness at concrete inputs: a string entry, a dict entry, and a
dropped numeric entry. -/
theorem C10_witness :
    parseKeyPoint (Json.jstr "decided") = Except.ok (some ⟨"decided", some "", ""⟩) ∧
    parseKeyPoint (Json.jobj [("point", Json.jstr "pt"), ("context", Json.jstr "cx")]) =
      Except.ok (some ⟨"pt", some "", "cx"⟩) ∧
    parseKeyPoints [Json.jint 7] = parseKeyPoints [] := by
  exact ⟨C10_key_points_mapping.1 "decided",
    C10_key_points_mapping.2.1 [("point", Json.jstr "pt"), ("context", Json.jstr "cx")]
      "pt" "cx" rfl rfl,
    C10_key_points_mapping.2.2 [] [] (Json.jint 7) rfl⟩

/-- C1, code evaluated at the failing inputs: for an empty, whitespace-only
or sentinel transcript, the placeholder construction at lines 351-357
passes stale keyword arguments and omits the required fields `duration`,
`key_points`, `next_steps` and `transcript`, so pydantic raises a
ValidationError; the outer handler catches it and the call returns `None`
instead of the placeholder summary. The model endpoint is indeed never
invoked (zero chat calls). -/
theorem C1_empty_transcript_returns_none (o : ChatOracle) (t : String) (d : Int)
    (h : t = "" ∨ pyStrip t = "" ∨ pyStrip (pyLower t) = "none") :
    summarize_transcript o t d = ⟨Except.ok none, 0, []⟩ := by
  unfold summarize_transcript summarizeBody
  rw [if_pos h]
  rfl

/-- C1 witness at the sentinel input. -/
theorem C1_witness :
    summarize_transcript (fun _ _ => Except.error PyErr.transportError) "none" 5 =
      ⟨Except.ok none, 0, []⟩ :=
  C1_empty_transcript_returns_none _ "none" 5 (Or.inr (Or.inr rfl))

/-- C9: no exception escapes `summarize_transcript` for any (string)
transcript — the result is always a returned value; and when all three
chat attempts fail on a non-sentinel transcript, the loop makes exactly 3
attempts with 5-second waits between them and the call reports failure by
returning `None`. -/
theorem C9_no_exception_retry_exhaustion :
    (∀ (o : ChatOracle) (t : String) (d : Int),
      ∃ r, (summarize_transcript o t d).result = Except.ok r) ∧
    (∀ (o : ChatOracle) (t : String) (d : Int),
      (∀ i, i < 3 → ∃ e, o (computeTimeout t.length) i = Except.error e) →
      ¬ (t = "" ∨ pyStrip t = "" ∨ pyStrip (pyLower t) = "none") →
      summarize_transcript o t d = ⟨Except.ok none, 3, [5, 5]⟩) := by
  constructor
  · intro o t d
    unfold summarize_transcript
    rcases hb : summarizeBody o t d with ⟨r, n, sl⟩
    cases r with
    | ok v => exact ⟨v, rfl⟩
    | error e => exact ⟨none, rfl⟩
  · intro o t d hfail hsent
    obtain ⟨e0, h0⟩ := hfail 0 (by omega)
    obtain ⟨e1, h1⟩ := hfail 1 (by omega)
    obtain ⟨e2, h2⟩ := hfail 2 (by omega)
    simp only [summarize_transcript, summarizeBody, retryChat, if_neg hsent,
      h0, h1, h2]

/-- C9 witness: an oracle that always fails. -/
theorem C9_witness :
    summarize_transcript (fun _ _ => Except.error PyErr.transportError) "x" 0 =
      ⟨Except.ok none, 3, [5, 5]⟩ :=
  C9_no_exception_retry_exhaustion.2 (fun _ _ => Except.error PyErr.transportError) "x" 0
    (fun i _ => ⟨PyErr.transportError, rfl⟩) (by decide)

/-- C5: when the cleaned response fails to parse and the repaired text
also fails to parse, the call returns (never raises) the fallback
summary: fixed apologetic overview, empty participants, key points and
next steps, and the original transcript verbatim. -/
theorem C5_fallback_summary (o : ChatOracle) (t raw : String) (d : Int)
    (hsent : ¬ (t = "" ∨ pyStrip t = "" ∨ pyStrip (pyLower t) = "none"))
    (h0 : o (computeTimeout t.length) 0 = Except.ok raw)
    (hp : pyJsonLoads (cleanResponse raw) = none)
    (hr : pyJsonLoads (applyRepairRegex (cleanResponse raw)) = none) :
    summarize_transcript o t d =
      ⟨Except.ok (some ⟨toString d ++ " minutes", fallbackOverview, [], [], [], [], t⟩),
       1, []⟩ := by
  have hpr : processResponse raw t d =
      Except.ok (some ⟨toString d ++ " minutes", fallbackOverview, [], [], [], [], t⟩) := by
    simp only [processResponse]
    rw [hp, hr]
    rfl
  simp only [summarize_transcript, summarizeBody, retryChat, if_neg hsent, h0, hpr]

/-- C5 witness: a prose-only response. -/
theorem C5_witness :
    summarize_transcript (fun _ _ => Except.ok "hello") "x" 2 =
      ⟨Except.ok (some ⟨"2 minutes", fallbackOverview, [], [], [], [], "x"⟩), 1, []⟩ :=
  C5_fallback_summary (fun _ _ => Except.ok "hello") "x" "hello" 2 (by decide) rfl rfl rfl

/-- C3, counterexample: on `"participants": [John, Sarah]` the repair
regex consumes the separating comma as part of the first match, so only
`John` is quoted and `Sarah` is left bare; the result does not parse as
JSON (wrapped as an object). -/
theorem C3_counterexample :
    applyRepairRegex "\"participants\": [John, Sarah]" =
      "\"participants\": [ \"John\" , Sarah]" ∧
    pyJsonLoads ("\x7b\"participants\": [ \"John\" , Sarah]\x7d") = none := by
  exact ⟨rfl, rfl⟩

/-- C3, amended: the repair wraps an unquoted element only when its
leading `[` or `,` delimiter was not consumed by the previous match, so
alternate elements are quoted: a single unquoted element is repaired and
parses, while in `[John, Sarah, Bob]` the middle element stays bare. -/
theorem C3_amended_alternate_quoting :
    applyRepairRegex "\"participants\": [John]" = "\"participants\": [ \"John\" ]" ∧
    pyJsonLoads ("\x7b\"participants\": [ \"John\" ]\x7d") =
      some (Json.jobj [("participants", Json.jarr [Json.jstr "John"])]) ∧
    applyRepairRegex "[John, Sarah, Bob]" = "[ \"John\" , Sarah, \"Bob\" ]" := by
  exact ⟨rfl, rfl, rfl⟩

/-- C6, counterexample: the repair step used by the summarization flow is
only the unquoted-element regex of line 435; on `["a", "b",]` it matches
nothing, the trailing comma stays, and the text still fails to parse. -/
theorem C6_counterexample :
    applyRepairRegex "[\"a\", \"b\",]" = "[\"a\", \"b\",]" ∧
    pyJsonLoads "[\"a\", \"b\",]" = none := by
  exact ⟨rfl, rfl⟩

/-- C6, amended: the `_repair_json` helper (never called from
`summarize_transcript`) does remove the trailing comma and its output
parses. -/
theorem C6_amended_repair_helper :
    _repair_json "[\"a\", \"b\",]" = some "[\"a\", \"b\"]" ∧
    pyJsonLoads "[\"a\", \"b\"]" = some (Json.jarr [Json.jstr "a", Json.jstr "b"]) := by
  exact ⟨rfl, rfl⟩

/-- C4, counterexample: serializing a summary whose key point says "d" and
mapping the persisted shape back yields a key point with empty statement,
because the mapper reads the key `point` while the persisted shape uses
`decision`; the round trip is not field-for-field equal. -/
theorem C4_counterexample :
    mapStructured (dumpMeetingTranscript
        ⟨"5 minutes", "o", ["p"], [], [⟨"d", some "", "c"⟩], [], "tx"⟩) "tx" 5 =
      Except.ok (some ⟨"5 minutes", "o", ["p"], [], [⟨"", some "", "c"⟩], [], "tx"⟩) ∧
    ¬ ((⟨"d", some "", "c"⟩ : Decision) = ⟨"", some "", "c"⟩) := by
  exact ⟨rfl, by decide⟩

/-- C4, amended: the round trip preserves overview, participants,
discussion areas and next steps (provided no next step has a null
assignee, which the mapper turns into the empty string), and preserves
key points exactly when each already has an empty statement and
empty-string assignee — the two sub-fields the mapper cannot recover
from the persisted shape. -/
theorem C4_amended_roundtrip (m : MeetingTranscript) (t : String) (d : Int)
    (hkp : ∀ k ∈ m.key_points, k.decision = "" ∧ k.assignee = some "")
    (hns : ∀ a ∈ m.next_steps, ¬ a.assignee = none) :
    mapStructured (dumpMeetingTranscript m) t d =
      Except.ok (some ⟨toString d ++ " minutes", m.overview, m.participants,
        m.discussion_areas, m.key_points, m.next_steps, t⟩) := by
  unfold mapStructured
  rw [mapperBody_dump m t d hkp hns]

/-- C4 witness: a concrete summary satisfying the amended conditions. -/
theorem C4_witness :
    mapStructured (dumpMeetingTranscript
        ⟨"x", "ov", ["a"], [⟨"T", "A"⟩], [], [⟨"do", some "Bob", some "Fri"⟩], "orig"⟩)
        "wt" 1 =
      Except.ok (some ⟨"1 minutes", "ov", ["a"], [⟨"T", "A"⟩], [],
        [⟨"do", some "Bob", some "Fri"⟩], "wt"⟩) :=
  C4_amended_roundtrip
    ⟨"x", "ov", ["a"], [⟨"T", "A"⟩], [], [⟨"do", some "Bob", some "Fri"⟩], "orig"⟩
    "wt" 1 (by simp) (by simp)
